import Mathlib

/-!
Verification development for the `gmaps_scraper_server` repository
(`extractor.py`, `scraper.py`, `main_api.py`).

The Python source is shallowly embedded: pure helpers become Lean
functions, regex searches are embedded as executable left-to-right
matchers specialised to the exact patterns appearing in the source,
Python `None`/exception outcomes become `Option`/`Except`, and the
stateful worker pool becomes a step relation on an explicit state type.
Machine floats in the source only ever hold short decimal literals and
are compared against decimal bounds, so they are modelled as `ℚ`.
Character-level operations (`lower`, `isdigit`, whitespace) are modelled
at the ASCII level, which coincides with Python on every string the
source manipulates here.
-/

namespace GmapsScraper

/-! ## Character and string helpers (ASCII model of Python's str ops) -/

/-- ASCII lower-casing on code points, as used by Python `str.lower` on
ASCII input: map A–Z to a–z, leave everything else alone. -/
def lowerNat (c : Char) : Nat :=
  let n := c.toNat
  if 65 ≤ n ∧ n ≤ 90 then n + 32 else n

/-- Case-insensitive character comparison (for `re.IGNORECASE`). -/
def lowEq (a b : Char) : Bool := lowerNat a = lowerNat b

/-- Python `\s` / `str.split()` whitespace, ASCII part. -/
def isPyWs (c : Char) : Bool :=
  c = ' ' ∨ c = '\t' ∨ c = '\n' ∨ c = '\r' ∨ c = '\x0b' ∨ c = '\x0c'

/-- Drop a literal from the front of the input, case-insensitively
(regex literal under `re.IGNORECASE`); `none` if it does not match. -/
def dropLitCI : List Char → List Char → Option (List Char)
  | [], cs => some cs
  | _ :: _, [] => none
  | p :: ps, c :: cs => if lowEq p c then dropLitCI ps cs else none

/-- Drop a literal from the front of the input, case-sensitively. -/
def dropLitCS : List Char → List Char → Option (List Char)
  | [], cs => some cs
  | _ :: _, [] => none
  | p :: ps, c :: cs => if p = c then dropLitCS ps cs else none

/-- Maximal run of characters satisfying `p` (greedy character class):
returns the run and the rest. -/
def takeRun (p : Char → Bool) : List Char → List Char × List Char
  | [] => ([], [])
  | c :: cs =>
    if p c then
      let r := takeRun p cs
      (c :: r.1, r.2)
    else ([], c :: cs)

/-- Nonempty maximal run (regex `X+` for a character class `X`). -/
def run1 (p : Char → Bool) (cs : List Char) : Option (List Char × List Char) :=
  match takeRun p cs with
  | ([], _) => none
  | (r, rest) => some (r, rest)

/-- Regex `\s+`: at least one whitespace character, greedily consumed. -/
def ws1 (cs : List Char) : Option (List Char) :=
  (run1 isPyWs cs).map (fun x => x.2)

/-- Python `re.search` driver: try the position matcher at every start
offset from left to right, returning the first success (leftmost match). -/
def searchAux (m : List Char → Option String) : List Char → Option String
  | [] => m []
  | c :: cs =>
    match m (c :: cs) with
    | some g => some g
    | none => searchAux m cs

/-- Digit value accumulation for a list of ASCII digits. -/
def decDigitsL (cs : List Char) : Nat :=
  cs.foldl (fun n c => n * 10 + (c.toNat - 48)) 0

/-- Python `str.split(sep)` over character lists (keeps empty pieces). -/
def splitOnChar (sep : Char) : List Char → List (List Char)
  | [] => [[]]
  | c :: cs =>
    let r := splitOnChar sep cs
    if c = sep then [] :: r
    else
      match r with
      | h :: t => (c :: h) :: t
      | [] => [[c]]

/-- Exact decimal number `mant / 10 ^ scale`: the value a Python float
parsed from a short digits-and-dot string denotes.  Kept unreduced so
that all extractor arithmetic stays in `Nat` and evaluates by `decide`. -/
structure DecFloat where
  mant : Nat
  scale : Nat
deriving DecidableEq, Repr

/-- The rational value of a `DecFloat` (used in theorem statements). -/
def DecFloat.toRat (x : DecFloat) : ℚ := (x.mant : ℚ) / 10 ^ x.scale

/-- Python `float(s)` restricted to the digit/dot strings produced by the
character classes `[\d.]+` and `\d\.\d` in the source: at most one dot,
not just a lone dot; anything else is a `ValueError`, i.e. `none`. -/
def parsePyFloat (s : String) : Option DecFloat :=
  let cs := s.toList
  if (cs.all (fun c => c.isDigit || c = '.')) = false then none
  else
    match splitOnChar '.' cs with
    | [i] => if i = [] then none else some ⟨decDigitsL i, 0⟩
    | [i, f] =>
      if i = [] ∧ f = [] then none
      else some ⟨decDigitsL i * 10 ^ f.length + decDigitsL f, f.length⟩
    | _ => none

/-- Python `int(count_str.replace(',', ''))` on a string drawn from the
class `[\d,]+`: strip commas, fail (`ValueError`) on the empty result. -/
def parsePyIntCommas (s : String) : Option Nat :=
  let ds := s.toList.filter (fun c => c ≠ ',')
  if ds = [] then none
  else if ds.all Char.isDigit then some (decDigitsL ds) else none

/-! ## `extractor.get_rating` (extractor.py lines 232–252)

Pattern 1: `aria-label="([\d.]+)\s+stars?"` (IGNORECASE), value kept only
if `1.0 <= rating <= 5.0`.  Pattern 2: `(\d\.\d)\s+out of 5 stars`
(IGNORECASE), value returned *without* a range check. -/

/-- Matcher for `aria-label="([\d.]+)\s+stars?"` anchored at the current
position; returns the captured group. -/
def ratingP1At (cs : List Char) : Option String := do
  let cs ← dropLitCI ("aria-label=\"".toList) cs
  let (run, cs) ← run1 (fun c => c.isDigit || c = '.') cs
  let cs ← ws1 cs
  let cs ← dropLitCI ("star".toList) cs
  -- `s?"`: greedily try to consume `s`, then require the closing quote.
  match cs with
  | c :: rest =>
    if lowEq 's' c then
      match rest with
      | '"' :: _ => some (String.mk run)
      | _ => none
    else if c = '"' then some (String.mk run)
    else none
  | [] => none

/-- Matcher for `(\d\.\d)\s+out of 5 stars` anchored at the current
position; returns the captured group. -/
def ratingP2At (cs : List Char) : Option String :=
  match cs with
  | d1 :: '.' :: d2 :: rest =>
    if d1.isDigit ∧ d2.isDigit then
      match ws1 rest with
      | some rest2 =>
        match dropLitCI ("out of 5 stars".toList) rest2 with
        | some _ => some (String.mk [d1, '.', d2])
        | none => none
      | none => none
    else none
  | _ => none

/-- Second strategy of `get_rating`: on a match, `return float(...)`
directly (a `ValueError` falls to the final `return None`). -/
def ratingFallback (html : String) : Option DecFloat :=
  match searchAux ratingP2At html.toList with
  | some s => parsePyFloat s
  | none => none

/-- Python `1.0 <= rating <= 5.0` on the exact decimal value:
`1 ≤ mant / 10 ^ scale ≤ 5` cross-multiplied into `Nat`. -/
def ratingInRange (r : DecFloat) : Bool :=
  10 ^ r.scale ≤ r.mant ∧ r.mant ≤ 5 * 10 ^ r.scale

/-- Embedding of `extractor.get_rating`. -/
def get_rating (html : String) : Option DecFloat :=
  match searchAux ratingP1At html.toList with
  | some s =>
    match parsePyFloat s with
    | some r => if ratingInRange r then some r else ratingFallback html
    | none => ratingFallback html
  | none => ratingFallback html

/-! ## `extractor.get_reviews_count` (extractor.py lines 254–275)

Patterns, tried in order, each via `re.search` with IGNORECASE|DOTALL:
1. `aria-label="[\d.]+\s+stars.*?([\d,]+)\s+reviews?"`
2. `([\d,]+)\s+reviews?`
3. `([0-9,]+)\s*Google reviews?`
A parsed count is returned only if `0 < count < 10000000`; otherwise the
next pattern is tried. -/

/-- Matcher for `([\d,]+)\s+reviews?` optionally followed by `"` (the
closing quote present in pattern 1 only), anchored at the position. -/
def reviewsGroupAt (needQuote : Bool) (cs : List Char) : Option String := do
  let (run, rest) ← run1 (fun c => c.isDigit || c = ',') cs
  let rest ← ws1 rest
  let rest ← dropLitCI ("review".toList) rest
  if needQuote then
    -- `s?"`: greedily try `s`, then require the quote.
    match rest with
    | c :: rest2 =>
      if lowEq 's' c then
        match rest2 with
        | '"' :: _ => some (String.mk run)
        | _ => none
      else if c = '"' then some (String.mk run)
      else none
    | [] => none
  else some (String.mk run)

/-- The non-greedy gap `.*?` of pattern 1 (DOTALL): try the tail match at
the shortest gap first, lengthening one character at a time. -/
def reviewsP1Tail : List Char → Option String
  | [] => none
  | c :: cs =>
    match reviewsGroupAt true (c :: cs) with
    | some g => some g
    | none => reviewsP1Tail cs

/-- Matcher for pattern 1 anchored at the current position. -/
def reviewsP1At (cs : List Char) : Option String := do
  let cs ← dropLitCI ("aria-label=\"".toList) cs
  let (_, cs) ← run1 (fun c => c.isDigit || c = '.') cs
  let cs ← ws1 cs
  let cs ← dropLitCI ("stars".toList) cs
  reviewsP1Tail cs

/-- Matcher for `([0-9,]+)\s*Google reviews?` anchored at the position. -/
def reviewsP3At (cs : List Char) : Option String := do
  let (run, rest) ← run1 (fun c => c.isDigit || c = ',') cs
  let rest2 := (takeRun isPyWs rest).2
  let _ ← dropLitCI ("Google review".toList) rest2
  some (String.mk run)

/-- One step of the `get_reviews_count` loop body: parse the captured
text and apply the sanity bound, otherwise fall through to `next`. -/
def reviewsTry (matched : Option String) (next : Option Nat) : Option Nat :=
  match matched with
  | some countStr =>
    match parsePyIntCommas countStr with
    | some count => if 0 < count ∧ count < 10000000 then some count else next
    | none => next
  | none => next

/-- Embedding of `extractor.get_reviews_count`. -/
def get_reviews_count (html : String) : Option Nat :=
  reviewsTry (searchAux reviewsP1At html.toList)
    (reviewsTry (searchAux (reviewsGroupAt false) html.toList)
      (reviewsTry (searchAux reviewsP3At html.toList) none))

/-! ## More Python string helpers used by `scraper.py` -/

/-- Prefix test on code-point lists. -/
def hasPrefixN : List Nat → List Nat → Bool
  | [], _ => true
  | _ :: _, [] => false
  | a :: as, b :: bs => a = b && hasPrefixN as bs

/-- Substring containment on code-point lists (Python `needle in hay`). -/
def containsN (needle : List Nat) : List Nat → Bool
  | [] => hasPrefixN needle []
  | b :: bs => hasPrefixN needle (b :: bs) || containsN needle bs

/-- Python `needle in hay` on raw strings. -/
def containsStr (needle hay : String) : Bool :=
  containsN (needle.toList.map Char.toNat) (hay.toList.map Char.toNat)

/-- Python `needle in hay.lower()` for an already-lowercase needle
(ASCII lowering). -/
def containsLower (needle hay : String) : Bool :=
  containsN (needle.toList.map lowerNat) (hay.toList.map lowerNat)

/-- Python `str.strip()` (ASCII whitespace model). -/
def stripWsL (cs : List Char) : List Char :=
  ((cs.dropWhile isPyWs).reverse.dropWhile isPyWs).reverse

/-- Python `str.strip()` on strings. -/
def stripWsStr (s : String) : String := String.mk (stripWsL s.toList)

/-- Python `str.split()` with no separator: split on whitespace runs,
dropping empty pieces.  The accumulator holds the current word reversed. -/
def splitWsAcc : List Char → List Char → List String
  | [], acc => if acc = [] then [] else [String.mk acc.reverse]
  | c :: cs, acc =>
    if isPyWs c then
      if acc = [] then splitWsAcc cs []
      else String.mk acc.reverse :: splitWsAcc cs []
    else splitWsAcc cs (c :: acc)

/-- Python `str.split()` with no separator. -/
def splitWs (s : String) : List String := splitWsAcc s.toList []

/-- Python `s.split(sep)` for a nonempty separator, fuelled by the input
length so that it stays structurally recursive and kernel-evaluable. -/
def splitOnListAux (sep : List Char) : Nat → List Char → List (List Char)
  | _, [] => [[]]
  | 0, cs => [cs]
  | fuel + 1, c :: cs =>
    match dropLitCS sep (c :: cs) with
    | some rest => [] :: splitOnListAux sep fuel rest
    | none =>
      match splitOnListAux sep fuel cs with
      | h :: t => (c :: h) :: t
      | [] => [[c]]

/-- Python `s.split(sep)` on strings (nonempty `sep`). -/
def splitOnStr (sep s : String) : List String :=
  (splitOnListAux sep.toList s.toList.length s.toList).map String.mk

/-- Python `''.join(filter(str.isdigit, s))` (ASCII digits). -/
def digitsOf (s : String) : String := String.mk (s.toList.filter Char.isDigit)

/-- Everything after the first `':'`, i.e. Python `s.split(':', 1)[-1]`
when `':' in s`. -/
def afterFirstColon : List Char → List Char
  | [] => []
  | ':' :: rest => rest
  | _ :: rest => afterFirstColon rest

/-- Hex digit value for percent-decoding. -/
def hexVal (c : Char) : Option Nat :=
  let n := c.toNat
  if 48 ≤ n ∧ n ≤ 57 then some (n - 48)
  else if 97 ≤ n ∧ n ≤ 102 then some (n - 87)
  else if 65 ≤ n ∧ n ≤ 70 then some (n - 55)
  else none

/-- Python `urllib.parse.unquote_plus` at the single-byte level: `+`
becomes a space and `%XY` a character; malformed escapes pass through.
(Multi-byte UTF-8 escapes are out of scope for the strings proved
about here.) -/
def unquotePlusL : List Char → List Char
  | [] => []
  | '+' :: rest => ' ' :: unquotePlusL rest
  | '%' :: a :: b :: rest =>
    match hexVal a, hexVal b with
    | some x, some y => Char.ofNat (16 * x + y) :: unquotePlusL rest
    | _, _ => '%' :: unquotePlusL (a :: b :: rest)
  | c :: rest => c :: unquotePlusL rest

/-- Python `urllib.parse.unquote_plus` on strings. -/
def unquotePlus (s : String) : String := String.mk (unquotePlusL s.toList)

/-! ## `scraper.extract_place_details` (scraper.py lines 13–210)

The Playwright page is an external collaborator; its observable answers
for one detail visit are captured in `DetailEnv`: for each CSS selector
the loop queries, the element found (if any) with the attributes and
inner text the code reads.  `navOk = false` models `page.goto` raising,
which the enclosing `try` turns into `return None`. -/

/-- A value stored in the emitted record: Python strings, or `None`
(possible for `website` when the anchor has no `href` attribute). -/
inductive PyVal where
  | str (s : String)
  | null
deriving DecidableEq, Repr

/-- A DOM element as this code observes it. -/
structure Elem where
  ariaLabel : Option String
  href : Option String
  innerText : String
deriving DecidableEq, Repr

/-- One detail-page visit's external observations, one entry per
selector in the order the source lists them. -/
structure DetailEnv where
  navOk : Bool
  ratingElems : List (Option Elem)
  reviewsElems : List (Option Elem)
  categoryElems : List (Option Elem)
  phoneElems : List (Option Elem)
  websiteElem : Option Elem
  addressElem : Option Elem
  hoursElems : List (Option Elem)
  hoursInfoDivs : List Elem
  hoursSpans : List Elem

/-- The rating selector loop (scraper.py lines 38–52): first element
whose aria-label mentions "star" sets `rating = aria.split()[0]` and
breaks; a whitespace-only label raises `IndexError`, which the
surrounding `except` turns into keeping the current value. -/
def ratingLoop : List (Option Elem) → String → String
  | [], r => r
  | none :: rest, r => ratingLoop rest r
  | some e :: rest, r =>
    match e.ariaLabel with
    | some a =>
      if a ≠ "" ∧ containsLower "star" a = true then
        match splitWs a with
        | [] => r
        | p :: _ => p
      else ratingLoop rest r
    | none => ratingLoop rest r

/-- The reviews selector loop (scraper.py lines 55–81).  Note the
faithful wrinkle: the digit filter's result is assigned to
`reviews_count` *before* the emptiness test, so a matching element with
a digitless first token overwrites the `"0"` default with `""`. -/
def reviewsLoop : List (Option Elem) → String → String
  | [], rc => rc
  | none :: rest, rc => reviewsLoop rest rc
  | some e :: rest, rc =>
    let ariaStep : Sum String String :=
      match e.ariaLabel with
      | some a =>
        if a ≠ "" ∧ containsLower "review" a = true then
          match splitWs a with
          | [] => Sum.inr rc
          | p :: _ =>
            let d := digitsOf p
            if d ≠ "" then Sum.inl d else Sum.inr d
        else Sum.inr rc
      | none => Sum.inr rc
    match ariaStep with
    | Sum.inl v => v
    | Sum.inr rc1 =>
      let t := e.innerText
      if t ≠ "" ∧ containsLower "review" t = true then
        match splitWs t with
        | [] => reviewsLoop rest rc1
        | p :: _ =>
          let d := digitsOf p
          if d ≠ "" then d else reviewsLoop rest d
      else reviewsLoop rest rc1

/-- The category selector loop (scraper.py lines 86–101). -/
def categoryLoop : List (Option Elem) → String → String
  | [], c => c
  | none :: rest, c => categoryLoop rest c
  | some e :: rest, c =>
    let t := e.innerText
    if t ≠ "" ∧ stripWsStr t ≠ "" ∧ t.length < 50 then stripWsStr t
    else categoryLoop rest c

/-- The phone selector loop (scraper.py lines 114–127). -/
def phoneLoop : List (Option Elem) → String → String
  | [], p => p
  | none :: rest, p => phoneLoop rest p
  | some e :: rest, p =>
    match e.ariaLabel with
    | some a =>
      if a ≠ "" ∧ containsStr ":" a = true then
        stripWsStr ((splitOnStr ":" a).getLastD "")
      else phoneLoop rest p
    | none => phoneLoop rest p

/-- The website lookup (scraper.py lines 132–138): when the authority
anchor exists its `href` is assigned as-is — possibly Python `None`. -/
def websiteVal (e : Option Elem) : PyVal :=
  match e with
  | some el =>
    match el.href with
    | some h => .str h
    | none => .null
  | none => .str "N/A"

/-- The address lookup (scraper.py lines 141–149). -/
def addressVal (e : Option Elem) : String :=
  match e with
  | some el =>
    match el.ariaLabel with
    | some a =>
      if a ≠ "" ∧ containsStr ":" a = true then
        stripWsStr (String.mk (afterFirstColon a.toList))
      else "N/A"
    | none => "N/A"
  | none => "N/A"

/-- Hours method 1 (scraper.py lines 154–167): selector loop over
aria-labels mentioning open/close. -/
def hoursM1 : List (Option Elem) → Option String
  | [] => none
  | none :: rest => hoursM1 rest
  | some e :: rest =>
    match e.ariaLabel with
    | some a =>
      if a ≠ "" ∧ (containsLower "open" a = true ∨ containsLower "close" a = true) then some a
      else hoursM1 rest
    | none => hoursM1 rest

/-- Hours method 2 (scraper.py lines 170–181): info divs whose text
looks like opening hours. -/
def hoursM2 : List Elem → Option String
  | [] => none
  | d :: rest =>
    let t := d.innerText
    if t ≠ "" ∧ (containsLower "open" t = true ∨ containsLower "closed" t = true) ∧
        (containsLower "am" t = true ∨ containsLower "pm" t = true ∨ containsStr ":" t = true) then
      some t
    else hoursM2 rest

/-- Hours method 3 (scraper.py lines 184–193): generic span fallback. -/
def hoursM3 : List Elem → Option String
  | [] => none
  | s :: rest =>
    let t := s.innerText
    if t ≠ "" ∧ (containsLower "opens" t = true ∨ containsLower "closes" t = true ∨
        containsLower "open ⋅" t = true) ∧ t.length < 100 then
      some t
    else hoursM3 rest

/-- The three-method hours waterfall; a value found by an earlier
method always contains "open"/"close(d)" text, so the source's
`hours == "N/A"` guards coincide with this `Option` chaining. -/
def hoursVal (env : DetailEnv) : String :=
  match hoursM1 env.hoursElems with
  | some h => h
  | none =>
    match hoursM2 env.hoursInfoDivs with
    | some h => h
    | none =>
      match hoursM3 env.hoursSpans with
      | some h => h
      | none => "N/A"

/-- The URL-derived name fallback (scraper.py lines 18–25):
`url.split('/maps/place/')[1].split('/data=')[0]`, URL-decoded. -/
def nameFromUrl (place_url : String) : String :=
  if place_url ≠ "" ∧ containsStr "/maps/place/" place_url = true then
    match splitOnStr "/maps/place/" place_url with
    | _ :: namePart :: _ =>
      match splitOnStr "/data=" namePart with
      | seg :: _ => unquotePlus seg
      | [] => "N/A"
    | _ => "N/A"
  else "N/A"

/-- Embedding of `scraper.extract_place_details`: `none` models the
navigation exception path, otherwise the record dictionary in insertion
order. -/
def extract_place_details (place_url : String) (env : DetailEnv)
    (extract_full_details : Bool) : Option (List (String × PyVal)) :=
  let name := nameFromUrl place_url
  if env.navOk = false then none
  else
    let base : List (String × PyVal) :=
      [("name", .str name), ("url", .str place_url),
       ("rating", .str (ratingLoop env.ratingElems "N/A")),
       ("reviews_count", .str (reviewsLoop env.reviewsElems "0")),
       ("category", .str (categoryLoop env.categoryElems "N/A"))]
    if extract_full_details then
      some (base ++
        [("phone", .str (phoneLoop env.phoneElems "N/A")),
         ("website", websiteVal env.websiteElem),
         ("address", .str (addressVal env.addressElem)),
         ("hours", .str (hoursVal env))])
    else some base

/-- Association-list lookup matching Python `dict.get` on the record
dictionaries built here (keys are distinct, so first hit = only hit). -/
def lookupKey {α : Type} (k : String) : List (String × α) → Option α
  | [] => none
  | (k2, v) :: rest => if k2 = k then some v else lookupKey k rest

/-! ## Link discovery (scraper.py lines 305–335) -/

/-- The scroll loop (scraper.py lines 314–327).  `query k` is the
number of `a[href*="/maps/place/"]` anchors the page reports on the
iteration whose `scroll_attempts` counter equals `k`; the fuel starts
at `20 - k` so the `scroll_attempts < 20` ceiling is the fuel running
out.  Returns the final `(scroll_attempts, places_loaded)`. -/
def scrollLoop (query : Nat → Nat) (max_places : Nat) : Nat → Nat → Nat → Nat × Nat
  | 0, k, places => (k, places)
  | fuel + 1, k, places =>
    if places < max_places then
      let loaded := query k
      if max_places ≤ loaded then (k, loaded)
      else scrollLoop query max_places fuel (k + 1) loaded
    else (k, places)

/-- The final URL collection (scraper.py lines 330–335): the first
`max_places` anchors' hrefs, keeping every truthy one, in order,
with no deduplication. -/
def collect_place_urls (hrefs : List (Option String)) (max_places : Nat) : List String :=
  (hrefs.take max_places).filterMap (fun o =>
    match o with
    | some u => if u = "" then none else some u
    | none => none)

/-! ## Worker pool result collection and the pipeline (scraper.py 213–358) -/

/-- Functional model of `process_places_parallel`'s result collection:
one task per URL in `place_urls[:max_places]`, `gather` keeps task
order, and `None`/exception results are filtered out. -/
def process_places_parallel (denv : String → DetailEnv) (place_urls : List String)
    (max_places : Nat) (extract_details : Bool) : List (List (String × PyVal)) :=
  (place_urls.take max_places).filterMap
    (fun u => extract_place_details u (denv u) extract_details)

/-- The external world of one `scrape_google_maps` run. -/
structure ScrapeEnv where
  feedAppears : Bool
  queryCounts : Nat → Nat
  finalHrefs : List (Option String)
  detailEnvs : String → DetailEnv

/-- Embedding of `scrape_google_maps`: when the results feed never
becomes visible, `wait_for_selector` raises `PlaywrightTimeout`, the
`except` block at lines 351–355 logs, closes the browser and
*re-raises*, so the caller sees the exception (`Except.error`). -/
def scrape_google_maps (env : ScrapeEnv) (query : String) (max_places : Nat)
    (extract_details : Bool) : Except String (List (List (String × PyVal))) :=
  if env.feedAppears = false then
    .error "Timeout 10000ms exceeded waiting for selector div[role=feed]"
  else
    let _ := scrollLoop env.queryCounts max_places 20 0 0
    let place_urls := collect_place_urls env.finalHrefs max_places
    .ok (process_places_parallel env.detailEnvs place_urls max_places extract_details)

/-- The POST /scrape request body (main_api.py lines 22–28). -/
structure ScrapeRequest where
  query : String
  max_places : Nat
  details : Bool

/-- What the API returns: a success envelope or an HTTP error status. -/
inductive ApiResult where
  | success (ok : Bool) (query : String) (total_results : Nat)
      (results : List (List (String × PyVal)))
  | httpError (status : Nat) (detail : String)
deriving DecidableEq, Repr

/-- Embedding of `main_api.scrape_post` (main_api.py lines 64–101).
Every exception escaping the `try` block — including the validation
`HTTPException`s raised inside it — is caught by the blanket
`except Exception` and surfaced as HTTP 500 `Scraping failed: ...`. -/
def scrape_post (env : ScrapeEnv) (req : ScrapeRequest) : ApiResult :=
  let tryBlock : Except String ApiResult :=
    if req.query = "" ∨ stripWsStr req.query = "" then
      .error "Query parameter is required"
    else if req.max_places < 1 ∨ 100 < req.max_places then
      .error "max_places must be between 1 and 100"
    else
      match scrape_google_maps env req.query req.max_places req.details with
      | .ok results => .ok (.success true req.query results.length results)
      | .error e => .error e
  match tryBlock with
  | .ok resp => resp
  | .error e => .httpError 500 ("Scraping failed: " ++ e)

/-- A detail visit on which every selector comes back empty. -/
def emptyDetailEnv : DetailEnv :=
  ⟨true, [], [], [], [], none, none, [], [], []⟩

/-- A run on which the results feed never becomes visible. -/
def deadEnv : ScrapeEnv :=
  ⟨false, fun _ => 0, [], fun _ => emptyDetailEnv⟩

/-! ## `extractor.extract_initial_json` and `extractor.parse_json_data`
(extractor.py lines 42–106) -/

/-- Decoded JSON values, the output type of `json.loads`. -/
inductive JsonValue where
  | null
  | bool (b : Bool)
  | num (q : Int)
  | str (s : String)
  | arr (elems : List JsonValue)
  | obj (fields : List (String × JsonValue))

/-- Python `x is None` on decoded JSON. -/
def jsonIsNull : JsonValue → Bool
  | .null => true
  | _ => false

/-- The regex `;window\.APP_INITIALIZATION_STATE\s*=\s*(.*?);window\.APP_FLAGS`
anchored at the current position (case-sensitive, DOTALL): after the
literal head, `\s*=\s*`, then the shortest gap followed by the literal
tail; the gap is the captured group. -/
def eijGap : List Char → List Char → Option String
  | [], _ => none
  | c :: cs, acc =>
    match dropLitCS (";window.APP_FLAGS".toList) (c :: cs) with
    | some _ => some (String.mk acc.reverse)
    | none => eijGap cs (c :: acc)

/-- Position matcher for the `APP_INITIALIZATION_STATE` pattern. -/
def eijAt (cs : List Char) : Option String := do
  let cs ← dropLitCS (";window.APP_INITIALIZATION_STATE".toList) cs
  let cs := (takeRun isPyWs cs).2
  match cs with
  | '=' :: cs2 =>
    let cs3 := (takeRun isPyWs cs2).2
    match dropLitCS (";window.APP_FLAGS".toList) cs3 with
    | some _ => some ""
    | none => eijGap cs3 []
  | _ => none

/-- Embedding of `extractor.extract_initial_json`: search for the
pattern, then require the stripped capture to start with `[` or `{`;
every failure path returns `None`. -/
def extract_initial_json (html_content : String) : Option String :=
  match searchAux eijAt html_content.toList with
  | some json_str =>
    match json_str.toList.dropWhile isPyWs with
    | '[' :: _ => some json_str
    | '{' :: _ => some json_str
    | _ => none
  | none => none

/-- The blob the source addresses as `initial_data[5][3][2]` when every
`isinstance`/length check on the way passes and `len(blob) >= 19`. -/
def blobAt532 (v : JsonValue) : Option (List JsonValue) :=
  match v with
  | .arr top =>
    if top.length > 5 then
      match top.get? 5 with
      | some (.arr l5) =>
        if l5.length > 3 then
          match l5.get? 3 with
          | some (.arr l53) =>
            if l53.length > 2 then
              match l53.get? 2 with
              | some (.arr blob) => if blob.length ≥ 19 then some blob else none
              | _ => none
            else none
          | _ => none
        else none
      | _ => none
    else none
  | _ => none

/-- The metadata record built at extractor.py lines 81–96. -/
structure PMetadata where
  cid : JsonValue
  name : JsonValue
  coordinates : Option (JsonValue × JsonValue)
  place_id : JsonValue

/-- The coordinate extraction from `data_blob[7]` (lines 89–93):
present only when `blob[7]` is a list of length ≥ 4 and both
`blob[7][2]` and `blob[7][3]` are non-null. -/
def coordsOf (blob : List JsonValue) : Option (JsonValue × JsonValue) :=
  if blob.length > 7 then
    match blob.get? 7 with
    | some (.arr b7) =>
      if b7.length ≥ 4 then
        match b7.get? 2, b7.get? 3 with
        | some lat, some lon =>
          if jsonIsNull lat = false ∧ jsonIsNull lon = false then some (lat, lon) else none
        | _, _ => none
      else none
    | _ => none
  else none

/-- The projection of the validated blob into `PMetadata`. -/
def projectBlob (blob : List JsonValue) : PMetadata :=
  { cid := blob.getD 0 .null
    name := blob.getD 1 .null
    coordinates := coordsOf blob
    place_id := blob.getD 18 .null }

/-- Embedding of `extractor.parse_json_data`.  `loads` stands for the
external `json.loads`; `Except.error` is a `JSONDecodeError`, which the
source catches and maps to `None`, as it does every shape mismatch. -/
def parse_json_data (loads : String → Except String JsonValue) (json_str : String) :
    Option PMetadata :=
  if json_str = "" then none
  else
    match loads json_str with
    | .error _ => none
    | .ok initial_data =>
      match blobAt532 initial_data with
      | some blob => some (projectBlob blob)
      | none => none

/-- The metadata step of `extract_place_data` (extractor.py lines
427–434): parse only when the payload was located. -/
def extract_metadata (loads : String → Except String JsonValue) (html : String) :
    Option PMetadata :=
  match extract_initial_json html with
  | some json_str => parse_json_data loads json_str
  | none => none

/-! ## `extractor.extract_place_data` aggregation (extractor.py 437–461)

The twelve per-field getters are regex pipelines over the raw markup;
the aggregation is agnostic to how they produced their values, so it is
embedded over the getters' outputs (`RawFields`), `none` standing for
Python `None`. -/

/-- A value one of the getters can produce. -/
inductive FieldVal where
  | str (s : String)
  | float (x : DecFloat)
  | nat (n : Nat)
  | strList (xs : List String)
  | coords (lat lon : JsonValue)
  | json (v : JsonValue)

/-- Python truthiness on getter values (only the name field's value is
ever tested). -/
def truthyField : FieldVal → Bool
  | .str s => s ≠ ""
  | .float x => x.mant ≠ 0
  | .nat n => n ≠ 0
  | .strList xs => xs ≠ []
  | .coords _ _ => true
  | .json .null => false
  | .json (.bool b) => b
  | .json (.num q) => q ≠ 0
  | .json (.str s) => s ≠ ""
  | .json (.arr xs) => !xs.isEmpty
  | .json (.obj kvs) => !kvs.isEmpty

/-- The outputs of the twelve getters for one page. -/
structure RawFields where
  name : Option FieldVal
  place_id : Option FieldVal
  coordinates : Option FieldVal
  address : Option FieldVal
  rating : Option FieldVal
  reviews_count : Option FieldVal
  reviews_url : Option FieldVal
  categories : Option FieldVal
  website : Option FieldVal
  phone : Option FieldVal
  thumbnail : Option FieldVal
  hours : Option FieldVal

/-- One dictionary entry of the comprehension
`{k: v for k, v in place_details.items() if v is not None}`. -/
def entry (k : String) (v : Option FieldVal) : List (String × FieldVal) :=
  match v with
  | some x => [(k, x)]
  | none => []

/-- The filtered dictionary, in the insertion order of extractor.py
lines 437–451. -/
def placePairs (f : RawFields) : List (String × FieldVal) :=
  entry "name" f.name ++ (entry "place_id" f.place_id ++
  (entry "coordinates" f.coordinates ++ (entry "address" f.address ++
  (entry "rating" f.rating ++ (entry "reviews_count" f.reviews_count ++
  (entry "reviews_url" f.reviews_url ++ (entry "categories" f.categories ++
  (entry "website" f.website ++ (entry "phone" f.phone ++
  (entry "thumbnail" f.thumbnail ++ entry "hours" f.hours))))))))))

/-- Embedding of the tail of `extractor.extract_place_data`: filter the
`None` fields, then return `None` unless the dictionary is nonempty and
has a truthy name. -/
def extract_place_data (f : RawFields) : Option (List (String × FieldVal)) :=
  if (placePairs f).isEmpty then none
  else
    match lookupKey "name" (placePairs f) with
    | some v => if truthyField v then some (placePairs f) else none
    | none => none

/-- The getter a given record key corresponds to (keys outside the
twelve have no getter). -/
def fieldSel (f : RawFields) (k : String) : Option FieldVal :=
  if k = "name" then f.name
  else if k = "place_id" then f.place_id
  else if k = "coordinates" then f.coordinates
  else if k = "address" then f.address
  else if k = "rating" then f.rating
  else if k = "reviews_count" then f.reviews_count
  else if k = "reviews_url" then f.reviews_url
  else if k = "categories" then f.categories
  else if k = "website" then f.website
  else if k = "phone" then f.phone
  else if k = "thumbnail" then f.thumbnail
  else if k = "hours" then f.hours
  else none

/-! ## The worker pool concurrency limiter (scraper.py lines 213–234)

`process_places_parallel` creates `asyncio.Semaphore(max_workers)` and
each worker runs `async with semaphore: page = new_page(); try:
extract ... finally: page.close()`.  The cooperative scheduling of the
workers is modelled as a step relation: a worker may acquire the
semaphore only when a permit is free, opens its page only while holding
a permit, and gives the permit back after closing the page (the
`finally` runs on success and failure alike). -/

/-- Where one worker task is in its lifecycle. -/
inductive Phase where
  | ready
  | acquired
  | working
  | closing
  | done
deriving DecidableEq, Repr

/-- Semaphore permits still free, plus every worker's phase. -/
structure PoolState where
  permits : Nat
  tasks : List Phase
deriving DecidableEq, Repr

/-- One scheduler step of the pool. -/
inductive PoolStep : PoolState → PoolState → Prop where
  | acquire (p : Nat) (l r : List Phase) :
      PoolStep ⟨p + 1, l ++ Phase.ready :: r⟩ ⟨p, l ++ Phase.acquired :: r⟩
  | openPage (p : Nat) (l r : List Phase) :
      PoolStep ⟨p, l ++ Phase.acquired :: r⟩ ⟨p, l ++ Phase.working :: r⟩
  | closePage (p : Nat) (l r : List Phase) :
      PoolStep ⟨p, l ++ Phase.working :: r⟩ ⟨p, l ++ Phase.closing :: r⟩
  | release (p : Nat) (l r : List Phase) :
      PoolStep ⟨p, l ++ Phase.closing :: r⟩ ⟨p + 1, l ++ Phase.done :: r⟩

/-- The pool's initial state: all permits free, one ready task per URL
in `place_urls[:max_places]`. -/
def initPool (maxWorkers : Nat) (place_urls : List String) (max_places : Nat) : PoolState :=
  ⟨maxWorkers, (place_urls.take max_places).map (fun _ => Phase.ready)⟩

/-- A task holding a detail-page session open. -/
def isWorking : Phase → Bool
  | .ready => false
  | .acquired => false
  | .working => true
  | .closing => false
  | .done => false

/-- A task currently holding a semaphore permit. -/
def holdsPermit : Phase → Bool
  | .ready => false
  | .acquired => true
  | .working => true
  | .closing => true
  | .done => false

/-- The number of detail-page sessions open in a state. -/
def openSessions (s : PoolState) : Nat := s.tasks.countP isWorking

/-- The number of permits held in a state. -/
def permitHolders (s : PoolState) : Nat := s.tasks.countP holdsPermit

/-! ## Lemmas about the validators -/

/-- Whatever a pattern captured, `get_reviews_count` only hands a value
back after the `0 < count < 10000000` sanity check (or defers to the
next pattern, which is held to the same bound). -/
theorem reviewsTry_bound (m : Option String) (next : Option Nat) (n : Nat)
    (hnext : ∀ k, next = some k → 0 < k ∧ k < 10000000)
    (h : reviewsTry m next = some n) : 0 < n ∧ n < 10000000 := by
  cases m with
  | none => exact hnext n h
  | some s =>
    unfold reviewsTry at h
    cases hp : parsePyIntCommas s with
    | none =>
      simp only [hp] at h
      exact hnext n h
    | some c =>
      simp only [hp] at h
      by_cases hc : 0 < c ∧ c < 10000000
      · rw [if_pos hc] at h
        injection h with h
        exact h ▸ hc
      · rw [if_neg hc] at h
        exact hnext n h

/-- A value produced by the second strategy of `get_rating` comes from
the `(\d\.\d)\s+out of 5 stars` pattern, parsed with no range check. -/
theorem ratingFallback_char (html : String) (r : DecFloat)
    (h : ratingFallback html = some r) :
    ∃ s, searchAux ratingP2At html.toList = some s ∧ parsePyFloat s = some r := by
  unfold ratingFallback at h
  cases hs : searchAux ratingP2At html.toList with
  | none => rw [hs] at h; cases h
  | some s => rw [hs] at h; exact ⟨s, rfl, h⟩

/-- The `Nat` form of the rating range check means exactly
`1.0 ≤ value ≤ 5.0` on the decimal value the float denotes. -/
theorem ratingInRange_iff (r : DecFloat) :
    ratingInRange r = true ↔ (1 ≤ r.toRat ∧ r.toRat ≤ 5) := by
  have hpos : (0 : ℚ) < 10 ^ r.scale := by positivity
  rw [ratingInRange, DecFloat.toRat, decide_eq_true_eq,
    one_le_div hpos, div_le_iff₀ hpos]
  constructor
  · rintro ⟨h1, h2⟩
    constructor
    · exact_mod_cast h1
    · calc (r.mant : ℚ) ≤ ((5 * 10 ^ r.scale : Nat) : ℚ) := by exact_mod_cast h2
        _ = 5 * 10 ^ r.scale := by push_cast; ring
  · rintro ⟨h1, h2⟩
    constructor
    · exact_mod_cast h1
    · have : (r.mant : ℚ) ≤ ((5 * 10 ^ r.scale : Nat) : ℚ) := by push_cast; linarith
      exact_mod_cast this

/-! ## Claim C5: the review-count validator -/

/-- C5 (counterexample).  The claim states that the review-count
extractor accepts exactly the integers in `[0, 10000000)` and that a
parsed count of `0` is accepted.  On the input `"0 reviews"` the source
(`extractor.py` line 270, `if 0 < count < 10000000`) rejects `0`: the
second pattern captures `"0"`, the bound check fails, the remaining
pattern does not match, and the function returns `None`. -/
theorem get_reviews_count_zero_rejected :
    get_reviews_count "0 reviews" = none ∧
    get_reviews_count "0 reviews" ≠ some 0 := by
  exact ⟨by decide, by decide⟩

/-- C5 (amended).  The review-count extractor strips grouping
separators, parses the matched text as an integer, and accepts exactly
the integers `n` with `0 < n < 10000000` (zero is rejected by the
strict lower bound): every returned count lies in that open range,
`"12,345 reviews"` yields `12345`, and `"12000000 reviews"` is
rejected. -/
theorem get_reviews_count_spec :
    (∀ html n, get_reviews_count html = some n → 0 < n ∧ n < 10000000) ∧
    get_reviews_count "12,345 reviews" = some 12345 ∧
    get_reviews_count "12000000 reviews" = none := by
  refine ⟨?_, by decide, by decide⟩
  intro html n h
  unfold get_reviews_count at h
  refine reviewsTry_bound _ _ _ (fun k hk => ?_) h
  refine reviewsTry_bound _ _ _ (fun k2 hk2 => ?_) hk
  exact reviewsTry_bound _ _ _ (fun k3 hk3 => Option.noConfusion hk3) hk2

/-- C5 (witness): the inner bound statement instantiated on a concrete
accepted input. -/
theorem get_reviews_count_spec_witness :
    0 < 12345 ∧ 12345 < 10000000 :=
  get_reviews_count_spec.1 "12,345 reviews" 12345 (by decide)

/-! ## Claim C6: the rating validator -/

/-- C6 (counterexample).  The claim states a parsed decimal rating is
accepted iff it lies in `[1.0, 5.0]` regardless of strategy tier, and
that an input parsing to `0.9` is rejected.  On `"0.9 out of 5 stars"`
the second tier of `extractor.get_rating` (lines 245–250) returns
`float("0.9")` with no range check, so `0.9` — a value strictly below
`1.0` — is accepted. -/
theorem get_rating_out_of_range_accepted :
    get_rating "0.9 out of 5 stars" = some ⟨9, 1⟩ ∧
    (⟨9, 1⟩ : DecFloat).toRat < 1 := by
  refine ⟨by decide, ?_⟩
  rw [DecFloat.toRat]
  norm_num

/-- C6 (amended).  Only the first (aria-label) tier of `get_rating`
validates the parsed rating against `[1.0, 5.0]`; the `"out of 5
stars"` fallback returns the parsed decimal without any range check.
Hence every accepted rating either lies in `[1.0, 5.0]` or was produced
by the fallback pattern; `aria-label="4.6 stars"` yields `4.6`, a sole
`aria-label="5.1 stars"` is rejected, and `"0.9 out of 5 stars"` yields
`0.9`. -/
theorem get_rating_spec :
    (∀ html r, get_rating html = some r →
      (1 ≤ r.toRat ∧ r.toRat ≤ 5) ∨
        (∃ s, searchAux ratingP2At html.toList = some s ∧ parsePyFloat s = some r)) ∧
    get_rating "aria-label=\"4.6 stars\"" = some ⟨46, 1⟩ ∧
    get_rating "aria-label=\"5.1 stars\"" = none ∧
    get_rating "0.9 out of 5 stars" = some ⟨9, 1⟩ := by
  refine ⟨?_, by decide, by decide, by decide⟩
  intro html r h
  unfold get_rating at h
  cases h1 : searchAux ratingP1At html.toList with
  | none =>
    rw [h1] at h
    exact Or.inr (ratingFallback_char html r h)
  | some s =>
    rw [h1] at h
    cases hp : parsePyFloat s with
    | none =>
      simp only [hp] at h
      exact Or.inr (ratingFallback_char html r h)
    | some r1 =>
      simp only [hp] at h
      by_cases hr : ratingInRange r1 = true
      · rw [if_pos hr] at h
        injection h with h
        subst h
        exact Or.inl ((ratingInRange_iff _).mp hr)
      · rw [if_neg hr] at h
        exact Or.inr (ratingFallback_char html r h)

/-- C6 (witness): the tier characterization instantiated on the
fallback-accepted concrete input. -/
theorem get_rating_spec_witness :
    (1 ≤ (⟨9, 1⟩ : DecFloat).toRat ∧ (⟨9, 1⟩ : DecFloat).toRat ≤ 5) ∨
      (∃ s, searchAux ratingP2At ("0.9 out of 5 stars").toList = some s ∧
        parsePyFloat s = some ⟨9, 1⟩) :=
  get_rating_spec.1 "0.9 out of 5 stars" ⟨9, 1⟩ (by decide)

/-! ## Lemmas about the extractor aggregation -/

/-- Membership in a single comprehension entry. -/
theorem mem_entry (k k2 : String) (v : FieldVal) (o : Option FieldVal) :
    ((k, v) ∈ entry k2 o) ↔ (k = k2 ∧ o = some v) := by
  cases o <;> simp [entry, eq_comm]

/-- Looking a key up past an entry with a different key. -/
theorem lookupKey_entry_skip (k k2 : String) (o : Option FieldVal)
    (l : List (String × FieldVal)) (hne : k2 ≠ k) :
    lookupKey k (entry k2 o ++ l) = lookupKey k l := by
  cases o <;> simp [entry, lookupKey, hne]

/-- The filtered dictionary holds the name key exactly when the name
getter produced a value. -/
theorem lookupKey_name_placePairs (f : RawFields) :
    lookupKey "name" (placePairs f) = f.name := by
  unfold placePairs
  cases hn : f.name with
  | some v => simp [entry, lookupKey]
  | none =>
    rw [show entry "name" (none : Option FieldVal) = [] from rfl, List.nil_append]
    rw [lookupKey_entry_skip _ _ _ _ (by decide), lookupKey_entry_skip _ _ _ _ (by decide),
      lookupKey_entry_skip _ _ _ _ (by decide), lookupKey_entry_skip _ _ _ _ (by decide),
      lookupKey_entry_skip _ _ _ _ (by decide), lookupKey_entry_skip _ _ _ _ (by decide),
      lookupKey_entry_skip _ _ _ _ (by decide), lookupKey_entry_skip _ _ _ _ (by decide),
      lookupKey_entry_skip _ _ _ _ (by decide), lookupKey_entry_skip _ _ _ _ (by decide)]
    cases hh : f.hours <;> simp [entry, lookupKey]

/-- A record emitted by `extract_place_data` is exactly the filtered
dictionary, and carries a truthy name. -/
theorem extract_place_data_some (f : RawFields) (r : List (String × FieldVal))
    (h : extract_place_data f = some r) :
    r = placePairs f ∧
      ∃ v, lookupKey "name" (placePairs f) = some v ∧ truthyField v = true := by
  unfold extract_place_data at h
  by_cases he : (placePairs f).isEmpty
  · rw [if_pos he] at h; cases h
  · rw [if_neg he] at h
    cases hl : lookupKey "name" (placePairs f) with
    | none => simp only [hl] at h; cases h
    | some v =>
      simp only [hl] at h
      by_cases ht : truthyField v = true
      · rw [if_pos ht] at h
        injection h with h
        exact ⟨h.symm, v, rfl, ht⟩
      · rw [if_neg ht] at h; cases h

/-! ## Claim C1: key presence in emitted records -/

/-- C1 (counterexample).  The claim says every emitted record contains
a key only if some extraction strategy produced a validated value for
it, never a placeholder.  The record actually handed to the caller by
the pipeline is built by `scraper.extract_place_details`, which on a
detail page where the rating, review and category selectors all come
back empty still emits `rating = "N/A"`, `reviews_count = "0"` and
`category = "N/A"` (scraper.py lines 38, 55, 86, 105–109). -/
theorem scraper_emits_placeholder_fields :
    extract_place_details "https://www.google.com/maps/place/Cafe" emptyDetailEnv false =
      some [("name", .str "Cafe"), ("url", .str "https://www.google.com/maps/place/Cafe"),
        ("rating", .str "N/A"), ("reviews_count", .str "0"), ("category", .str "N/A")] := by
  decide

/-- C1 (amended).  In `extractor.extract_place_data` the emitted record
contains a key exactly when the corresponding field getter produced a
(non-`None`) value, with that very value — fields whose every strategy
failed are omitted, never null-filled.  The records emitted by the
pipeline's `scraper.extract_place_details`, by contrast, carry
placeholder defaults (see the counterexample). -/
theorem extract_place_data_key_iff (f : RawFields) (r : List (String × FieldVal))
    (h : extract_place_data f = some r) (k : String) (v : FieldVal) :
    (k, v) ∈ r ↔ fieldSel f k = some v := by
  obtain ⟨hr, -⟩ := extract_place_data_some f r h
  subst hr
  simp only [placePairs, List.mem_append, mem_entry]
  unfold fieldSel
  rcases eq_or_ne k "name" with rfl | h1
  · simp
  rcases eq_or_ne k "place_id" with rfl | h2
  · simp
  rcases eq_or_ne k "coordinates" with rfl | h3
  · simp
  rcases eq_or_ne k "address" with rfl | h4
  · simp
  rcases eq_or_ne k "rating" with rfl | h5
  · simp
  rcases eq_or_ne k "reviews_count" with rfl | h6
  · simp
  rcases eq_or_ne k "reviews_url" with rfl | h7
  · simp
  rcases eq_or_ne k "categories" with rfl | h8
  · simp
  rcases eq_or_ne k "website" with rfl | h9
  · simp
  rcases eq_or_ne k "phone" with rfl | h10
  · simp
  rcases eq_or_ne k "thumbnail" with rfl | h11
  · simp
  rcases eq_or_ne k "hours" with rfl | h12
  · simp
  simp [h1, h2, h3, h4, h5, h6, h7, h8, h9, h10, h11, h12]

/-- C1 (witness): the key/getter correspondence instantiated on a
record with only a name. -/
theorem extract_place_data_key_iff_witness :
    (("rating", FieldVal.str "x") ∈ [(("name" : String), FieldVal.str "Cafe")]) ↔
      fieldSel ⟨some (.str "Cafe"), none, none, none, none, none,
        none, none, none, none, none, none⟩ "rating" = some (FieldVal.str "x") :=
  extract_place_data_key_iff
    ⟨some (.str "Cafe"), none, none, none, none, none, none, none, none, none, none, none⟩
    [("name", FieldVal.str "Cafe")] rfl "rating" (FieldVal.str "x")

/-! ## Claim C7: pages without a name -/

/-- C7 (counterexample).  The claim says an item with no extracted name
yields no record at all, not a placeholder.  The pipeline's
`scraper.extract_place_details` derives the name from the URL alone and
always emits a record: on a URL without a `/maps/place/` segment the
record is emitted with the literal placeholder name `"N/A"`
(scraper.py lines 18–30, 206). -/
theorem scraper_emits_placeholder_name :
    extract_place_details "https://example.com/notaplace" emptyDetailEnv false =
      some [("name", .str "N/A"), ("url", .str "https://example.com/notaplace"),
        ("rating", .str "N/A"), ("reviews_count", .str "0"), ("category", .str "N/A")] := by
  decide

/-- C7 (amended).  In `extractor.extract_place_data`, a page for which
the name getter produced nothing yields no record at all (`None`); the
pipeline's `scraper.extract_place_details` instead always emits a
record whose name is URL-derived, falling back to the placeholder
`"N/A"` (see the counterexample). -/
theorem extract_place_data_drops_nameless (f : RawFields) (h : f.name = none) :
    extract_place_data f = none := by
  unfold extract_place_data
  have hl : lookupKey "name" (placePairs f) = none := by
    rw [lookupKey_name_placePairs, h]
  by_cases he : (placePairs f).isEmpty
  · rw [if_pos he]
  · rw [if_neg he, hl]

/-- C7 (witness): a page with an address but no name is dropped. -/
theorem extract_place_data_drops_nameless_witness :
    extract_place_data ⟨none, none, none, some (.str "12 Main St"), none, none,
      none, none, none, none, none, none⟩ = none :=
  extract_place_data_drops_nameless
    ⟨none, none, none, some (.str "12 Main St"), none, none,
      none, none, none, none, none, none⟩ rfl

/-! ## Claim C3: scroll-loop termination -/

/-- The scroll loop always stops within its fuel, and it stops either
by exhausting the iteration ceiling or because the observed anchor
count reached the target. -/
theorem scrollLoop_char (query : Nat → Nat) (mp : Nat) :
    ∀ fuel k places, (scrollLoop query mp fuel k places).1 ≤ k + fuel ∧
      ((scrollLoop query mp fuel k places).1 = k + fuel ∨
        mp ≤ (scrollLoop query mp fuel k places).2) := by
  intro fuel
  induction fuel with
  | zero =>
    intro k places
    constructor
    · simp [scrollLoop]
    · left; simp [scrollLoop]
  | succ n ih =>
    intro k places
    unfold scrollLoop
    by_cases h1 : places < mp
    · rw [if_pos h1]
      by_cases h2 : mp ≤ query k
      · rw [if_pos h2]
        exact ⟨by omega, Or.inr h2⟩
      · rw [if_neg h2]
        obtain ⟨ha, hb⟩ := ih (k + 1) (query k)
        refine ⟨by omega, ?_⟩
        rcases hb with hb | hb
        · exact Or.inl (by omega)
        · exact Or.inr hb
    · rw [if_neg h1]
      exact ⟨by omega, Or.inr (by omega)⟩

/-- C3 (counterexample).  The claim says discovery stops on stagnation
after `K = 5` consecutive iterations with unchanged scroll extent and
no new links.  With a page perpetually reporting one anchor (no growth
at all, the most stagnant page possible) and a target of 10 places, the
source loop (scraper.py lines 314–327) runs the full 20 scroll
iterations: no stagnation counter exists in the code, far exceeding the
6 iterations the claimed `K = 5` rule would allow from the start. -/
theorem scrollLoop_ignores_stagnation :
    (scrollLoop (fun _ => 1) 10 20 0 0).1 = 20 ∧
      ¬ (scrollLoop (fun _ => 1) 10 20 0 0).1 ≤ 6 := by
  exact ⟨by decide, by decide⟩

/-- C3 (amended).  Link discovery has no stagnation detection: the
scroll loop stops exactly when the observed anchor count reaches
`max_places` or when the overall ceiling of 20 scroll iterations runs
out — the ceiling alone guarantees it cannot loop forever on an
unresponsive container. -/
theorem scrollLoop_bounded (query : Nat → Nat) (mp : Nat) :
    (scrollLoop query mp 20 0 0).1 ≤ 20 ∧
      ((scrollLoop query mp 20 0 0).1 = 20 ∨ mp ≤ (scrollLoop query mp 20 0 0).2) :=
  scrollLoop_char query mp 20 0 0

/-! ## Claim C4: URL deduplication -/

/-- Duplicates among the truthy hrefs survive the collection verbatim. -/
theorem count_collect_truthy (u : String) (hu : u ≠ "") :
    ∀ l : List (Option String),
      (l.filterMap (fun o =>
        match o with
        | some s => if s = "" then none else some s
        | none => none)).count u = l.count (some u) := by
  intro l
  induction l with
  | nil => rfl
  | cons o t ih =>
    cases o with
    | none => simpa [List.filterMap_cons, List.count_cons] using ih
    | some s =>
      by_cases hs : s = ""
      · subst hs
        simpa [List.filterMap_cons, List.count_cons, Ne.symm hu] using ih
      · simp [List.filterMap_cons, hs, List.count_cons, ih]

/-- C4 (counterexample).  The claim says each distinct detail-page URL
contributes at most one candidate to the final set handed to the worker
pool.  The collection at scraper.py lines 330–335 appends every truthy
href with no deduplication: two anchors with the same URL yield two
entries (and hence two pool tasks). -/
theorem collect_place_urls_duplicates :
    collect_place_urls
        [some "https://www.google.com/maps/place/A", some "https://www.google.com/maps/place/A"] 10 =
      ["https://www.google.com/maps/place/A", "https://www.google.com/maps/place/A"] ∧
    ¬ (collect_place_urls
        [some "https://www.google.com/maps/place/A", some "https://www.google.com/maps/place/A"] 10).Nodup := by
  exact ⟨by decide, by decide⟩

/-- C4 (amended).  The final URL list is built in one pass from the
first `max_places` anchors, keeping every truthy href in order with no
deduplication: each URL occurs in the list handed to the worker pool
exactly as many times as it occurs among those anchors' hrefs. -/
theorem collect_place_urls_count (hrefs : List (Option String)) (mp : Nat)
    (u : String) (hu : u ≠ "") :
    (collect_place_urls hrefs mp).count u = (hrefs.take mp).count (some u) := by
  unfold collect_place_urls
  exact count_collect_truthy u hu (hrefs.take mp)

/-- C4 (witness): the count equation on a duplicated concrete href. -/
theorem collect_place_urls_count_witness :
    (collect_place_urls [some "https://www.google.com/maps/place/A",
        some "https://www.google.com/maps/place/A"] 10).count
        "https://www.google.com/maps/place/A" =
      (([some "https://www.google.com/maps/place/A",
        some "https://www.google.com/maps/place/A"] :
          List (Option String)).take 10).count (some "https://www.google.com/maps/place/A") :=
  collect_place_urls_count _ 10 _ (by decide)

/-! ## Claim C2: missing results container -/

/-- C2 (counterexample).  The claim says that when the results
container never appears the run returns an empty result set with
success still indicated.  In the source, `wait_for_selector` raising
`PlaywrightTimeout` is re-raised by the `except` block (scraper.py
lines 351–355), and `scrape_post` converts it into an HTTP 500 error
response (main_api.py lines 99–101) — not a success envelope with zero
results.  There is no direct detail-link fallback anywhere in the
code. -/
theorem feed_absent_not_empty_success :
    scrape_post deadEnv ⟨"hotel paris", 10, false⟩ =
      .httpError 500
        "Scraping failed: Timeout 10000ms exceeded waiting for selector div[role=feed]" ∧
    scrape_post deadEnv ⟨"hotel paris", 10, false⟩ ≠ .success true "hotel paris" 0 [] := by
  exact ⟨by decide, by decide⟩

/-- C2 (amended).  If the results container never appears in the search
view, `scrape_google_maps` re-raises the wait timeout (there is no
direct detail-link fallback), and for any well-formed request the API
layer surfaces it to the caller as an HTTP 500 "Scraping failed"
error — not as a success with zero results. -/
theorem feed_absent_yields_500 (env : ScrapeEnv) (q : String) (mp : Nat) (d : Bool)
    (hfeed : env.feedAppears = false)
    (hq : q ≠ "") (hqs : stripWsStr q ≠ "")
    (hmp1 : 1 ≤ mp) (hmp2 : mp ≤ 100) :
    scrape_post env ⟨q, mp, d⟩ =
      .httpError 500
        "Scraping failed: Timeout 10000ms exceeded waiting for selector div[role=feed]" := by
  unfold scrape_post scrape_google_maps
  rw [hfeed]
  rw [if_neg (by simp [hq, hqs])]
  rw [if_neg (by intro h; rcases h with h | h <;> (dsimp only at h; omega))]
  rfl

/-- C2 (witness): the 500 response on a concrete dead run. -/
theorem feed_absent_yields_500_witness :
    scrape_post deadEnv ⟨"hotel paris", 10, false⟩ =
      .httpError 500
        "Scraping failed: Timeout 10000ms exceeded waiting for selector div[role=feed]" :=
  feed_absent_yields_500 deadEnv "hotel paris" 10 false rfl (by decide) (by decide)
    (by decide) (by decide)

/-! ## Claim C8: metadata extraction is total and best-effort -/

/-- C8.  Embedded-metadata extraction returns an `Option`: a decode
error (`loads` failing), a missing `APP_INITIALIZATION_STATE` payload,
or any shape/offset mismatch on the way to `initial_data[5][3][2]`
yields `None`, and when every check passes the projected metadata is
returned; the embedding is a total function, so no exception escapes
the surrounding extraction. -/
theorem parse_json_data_total (loads : String → Except String JsonValue) (s : String) :
    (s = "" → parse_json_data loads s = none) ∧
    (∀ e, loads s = .error e → parse_json_data loads s = none) ∧
    (∀ v, loads s = .ok v → blobAt532 v = none → parse_json_data loads s = none) ∧
    (∀ v blob, loads s = .ok v → blobAt532 v = some blob → s ≠ "" →
      parse_json_data loads s = some (projectBlob blob)) ∧
    (∀ html, extract_initial_json html = none →
      extract_metadata loads html = none) ∧
    (∀ html, extract_metadata loads html = none ∨
      ∃ m, extract_metadata loads html = some m) := by
  refine ⟨?_, ?_, ?_, ?_, ?_, ?_⟩
  · intro hs
    unfold parse_json_data
    rw [if_pos hs]
  · intro e he
    unfold parse_json_data
    by_cases hs : s = ""
    · rw [if_pos hs]
    · rw [if_neg hs]
      simp only [he]
  · intro v hv hb
    unfold parse_json_data
    by_cases hs : s = ""
    · rw [if_pos hs]
    · rw [if_neg hs]
      simp only [hv, hb]
  · intro v blob hv hb hs
    unfold parse_json_data
    rw [if_neg hs]
    simp only [hv, hb]
  · intro html hnone
    unfold extract_metadata
    simp only [hnone]
  · intro html
    cases h : extract_metadata loads html with
    | none => exact Or.inl rfl
    | some m => exact Or.inr ⟨m, rfl⟩

/-- C8 (witness): the success projection on a concrete payload whose
blob at `[5][3][2]` is nineteen nulls. -/
theorem parse_json_data_total_witness :
    parse_json_data
        (fun _ => Except.ok (JsonValue.arr [.null, .null, .null, .null, .null,
          .arr [.null, .null, .null,
            .arr [.null, .null, .arr (List.replicate 19 JsonValue.null)]]]))
        "[payload]" =
      some (projectBlob (List.replicate 19 JsonValue.null)) :=
  (parse_json_data_total
      (fun _ => Except.ok (JsonValue.arr [.null, .null, .null, .null, .null,
        .arr [.null, .null, .null,
          .arr [.null, .null, .arr (List.replicate 19 JsonValue.null)]]]))
      "[payload]").2.2.2.1
    (JsonValue.arr [.null, .null, .null, .null, .null,
      .arr [.null, .null, .null,
        .arr [.null, .null, .arr (List.replicate 19 JsonValue.null)]]])
    (List.replicate 19 JsonValue.null) rfl rfl (by decide)

/-! ## Claim C9: the worker-pool concurrency bound -/

/-- Each pool step preserves `free permits + held permits = maxWorkers`:
acquiring trades a free permit for a held one, and releasing (which the
`async with` does only after the `finally` closed the page) trades it
back. -/
theorem poolStep_inv (c : Nat) (s t : PoolState) (hst : PoolStep s t)
    (hinv : s.permits + permitHolders s = c) :
    t.permits + permitHolders t = c := by
  cases hst with
  | acquire p l r =>
    simp [permitHolders, List.countP_append, List.countP_cons, holdsPermit] at hinv ⊢
    omega
  | openPage p l r =>
    simp [permitHolders, List.countP_append, List.countP_cons, holdsPermit] at hinv ⊢
    omega
  | closePage p l r =>
    simp [permitHolders, List.countP_append, List.countP_cons, holdsPermit] at hinv ⊢
    omega
  | release p l r =>
    simp [permitHolders, List.countP_append, List.countP_cons, holdsPermit] at hinv ⊢
    omega

/-- C9.  For every input set of candidate links and every concurrency
limit `maxWorkers ≥ 1`, no state the worker pool can reach from its
initial state has more than `maxWorkers` detail-page sessions open: a
page is opened only while holding a semaphore permit, and at most
`maxWorkers` permits exist. -/
theorem pool_sessions_bounded (maxWorkers : Nat) (place_urls : List String)
    (max_places : Nat) (s : PoolState) (hC : 1 ≤ maxWorkers)
    (hreach : Relation.ReflTransGen PoolStep (initPool maxWorkers place_urls max_places) s) :
    openSessions s ≤ maxWorkers := by
  have hinv : s.permits + permitHolders s = maxWorkers := by
    induction hreach with
    | refl =>
      simp only [initPool, permitHolders, List.countP_map]
      have hz : List.countP (holdsPermit ∘ fun _ : String => Phase.ready)
          (List.take max_places place_urls) = 0 :=
        List.countP_eq_zero.mpr (fun a _ => by simp [Function.comp, holdsPermit])
      omega
    | tail hab hbc ih => exact poolStep_inv maxWorkers _ _ hbc ih
  have hle : openSessions s ≤ permitHolders s := by
    unfold openSessions permitHolders
    apply List.countP_mono_left
    intro ph _ hw
    cases ph <;> simp_all [isWorking, holdsPermit]
  omega

/-- C9 (witness): the bound at the initial state of a one-worker,
one-link pool. -/
theorem pool_sessions_bounded_witness :
    openSessions (initPool 1 ["https://www.google.com/maps/place/A"] 10) ≤ 1 :=
  pool_sessions_bounded 1 ["https://www.google.com/maps/place/A"] 10
    (initPool 1 ["https://www.google.com/maps/place/A"] 10)
    (by decide) Relation.ReflTransGen.refl

/-! ## Claim C10: the pipeline record's keys and defaults -/

/-- When no rating selector matches, the loop keeps its default. -/
theorem ratingLoop_default (l : List (Option Elem)) (d : String)
    (h : ∀ e ∈ l, e = none) : ratingLoop l d = d := by
  induction l with
  | nil => rfl
  | cons e rest ih =>
    have he : e = none := h e (List.mem_cons_self e rest)
    subst he
    exact ih (fun e2 h2 => h e2 (List.mem_cons_of_mem none h2))

/-- When no reviews selector matches, the loop keeps its default. -/
theorem reviewsLoop_default (l : List (Option Elem)) (d : String)
    (h : ∀ e ∈ l, e = none) : reviewsLoop l d = d := by
  induction l with
  | nil => rfl
  | cons e rest ih =>
    have he : e = none := h e (List.mem_cons_self e rest)
    subst he
    exact ih (fun e2 h2 => h e2 (List.mem_cons_of_mem none h2))

/-- When no category selector matches, the loop keeps its default. -/
theorem categoryLoop_default (l : List (Option Elem)) (d : String)
    (h : ∀ e ∈ l, e = none) : categoryLoop l d = d := by
  induction l with
  | nil => rfl
  | cons e rest ih =>
    have he : e = none := h e (List.mem_cons_self e rest)
    subst he
    exact ih (fun e2 h2 => h e2 (List.mem_cons_of_mem none h2))

/-- When no phone selector matches, the loop keeps its default. -/
theorem phoneLoop_default (l : List (Option Elem)) (d : String)
    (h : ∀ e ∈ l, e = none) : phoneLoop l d = d := by
  induction l with
  | nil => rfl
  | cons e rest ih =>
    have he : e = none := h e (List.mem_cons_self e rest)
    subst he
    exact ih (fun e2 h2 => h e2 (List.mem_cons_of_mem none h2))

/-- When no hours selector matches, method 1 finds nothing. -/
theorem hoursM1_none (l : List (Option Elem)) (h : ∀ e ∈ l, e = none) :
    hoursM1 l = none := by
  induction l with
  | nil => rfl
  | cons e rest ih =>
    have he : e = none := h e (List.mem_cons_self e rest)
    subst he
    exact ih (fun e2 h2 => h e2 (List.mem_cons_of_mem none h2))

/-- C10.  Every record the pipeline's per-place extraction emits
contains the keys `name`, `url`, `rating`, `reviews_count` and
`category`; with full-detail extraction selected it also contains
`phone`, `website`, `address` and `hours`.  The name is the URL-decoded
path segment of the place URL (placeholder `"N/A"` when there is none),
and each extractable field falls back to its default — `"N/A"`, or
`"0"` for the review count — when its selectors find nothing. -/
theorem extract_place_details_keys (url : String) (env : DetailEnv) (full : Bool)
    (r : List (String × PyVal)) (h : extract_place_details url env full = some r) :
    lookupKey "name" r = some (.str (nameFromUrl url)) ∧
    lookupKey "url" r = some (.str url) ∧
    lookupKey "rating" r = some (.str (ratingLoop env.ratingElems "N/A")) ∧
    lookupKey "reviews_count" r = some (.str (reviewsLoop env.reviewsElems "0")) ∧
    lookupKey "category" r = some (.str (categoryLoop env.categoryElems "N/A")) ∧
    ((∀ e ∈ env.ratingElems, e = none) → lookupKey "rating" r = some (.str "N/A")) ∧
    ((∀ e ∈ env.reviewsElems, e = none) → lookupKey "reviews_count" r = some (.str "0")) ∧
    ((∀ e ∈ env.categoryElems, e = none) → lookupKey "category" r = some (.str "N/A")) ∧
    (full = true →
      lookupKey "phone" r = some (.str (phoneLoop env.phoneElems "N/A")) ∧
      lookupKey "website" r = some (websiteVal env.websiteElem) ∧
      lookupKey "address" r = some (.str (addressVal env.addressElem)) ∧
      lookupKey "hours" r = some (.str (hoursVal env)) ∧
      ((∀ e ∈ env.phoneElems, e = none) → lookupKey "phone" r = some (.str "N/A")) ∧
      (env.websiteElem = none → lookupKey "website" r = some (.str "N/A")) ∧
      (env.addressElem = none → lookupKey "address" r = some (.str "N/A")) ∧
      ((∀ e ∈ env.hoursElems, e = none) → env.hoursInfoDivs = [] → env.hoursSpans = [] →
        lookupKey "hours" r = some (.str "N/A"))) ∧
    nameFromUrl "https://www.google.com/maps/place/Central+Park%21/data=!4m2" =
      "Central Park!" := by
  unfold extract_place_details at h
  by_cases hn : env.navOk = false
  · rw [if_pos hn] at h; cases h
  · rw [if_neg hn] at h
    cases full with
    | false =>
      simp only [Bool.false_eq_true, if_false] at h
      injection h with h
      subst h
      refine ⟨?_, ?_, ?_, ?_, ?_, ?_, ?_, ?_, ?_, ?_⟩
      · simp [lookupKey]
      · simp [lookupKey]
      · simp [lookupKey]
      · simp [lookupKey]
      · simp [lookupKey]
      · intro hall
        simp [lookupKey, ratingLoop_default env.ratingElems "N/A" hall]
      · intro hall
        simp [lookupKey, reviewsLoop_default env.reviewsElems "0" hall]
      · intro hall
        simp [lookupKey, categoryLoop_default env.categoryElems "N/A" hall]
      · intro hf
        cases hf
      · decide
    | true =>
      simp only [if_true] at h
      injection h with h
      subst h
      refine ⟨?_, ?_, ?_, ?_, ?_, ?_, ?_, ?_, ?_, ?_⟩
      · simp [lookupKey]
      · simp [lookupKey]
      · simp [lookupKey]
      · simp [lookupKey]
      · simp [lookupKey]
      · intro hall
        simp [lookupKey, ratingLoop_default env.ratingElems "N/A" hall]
      · intro hall
        simp [lookupKey, reviewsLoop_default env.reviewsElems "0" hall]
      · intro hall
        simp [lookupKey, categoryLoop_default env.categoryElems "N/A" hall]
      · intro _
        refine ⟨?_, ?_, ?_, ?_, ?_, ?_, ?_, ?_⟩
        · simp [lookupKey]
        · simp [lookupKey]
        · simp [lookupKey]
        · simp [lookupKey]
        · intro hall
          simp [lookupKey, phoneLoop_default env.phoneElems "N/A" hall]
        · intro hw
          simp [lookupKey, websiteVal, hw]
        · intro ha
          simp [lookupKey, addressVal, ha]
        · intro hall hdivs hspans
          simp [lookupKey, hoursVal, hoursM1_none env.hoursElems hall, hdivs, hspans,
            hoursM2, hoursM3]
      · decide

/-- C10 (witness): the record shape on a concrete full-detail visit
with no matching selectors. -/
theorem extract_place_details_keys_witness :
    lookupKey "name"
        ((extract_place_details "https://www.google.com/maps/place/Cafe"
          emptyDetailEnv true).getD []) =
      some (.str (nameFromUrl "https://www.google.com/maps/place/Cafe")) :=
  (extract_place_details_keys "https://www.google.com/maps/place/Cafe" emptyDetailEnv true
    ((extract_place_details "https://www.google.com/maps/place/Cafe"
      emptyDetailEnv true).getD []) rfl).1

end GmapsScraper
